import Mathlib

/-!
# Defiant payment core — shallow embedding

A shallow embedding of the payment core of the Defiant repository
(`src/backend/src/services/payment_service.rs`,
`src/backend/src/api/v1/payments.rs`, `src/backend/src/models/payment.rs`,
`src/backend/src/errors.rs`) together with theorems settling the claims
about it.

Modelling conventions:
* `Uuid` values become `Nat`; `DateTime<Utc>` timestamps become `Nat`.
* JSON metadata (`serde_json::Value` restricted to the object shape the
  code manipulates with `jsonb_set`) becomes an association list
  `List (String × String)`.
* The Postgres transaction of `create_payment` is modelled by computing
  the new table contents purely and installing them only on the commit
  path; every early-error path returns the store unchanged (rollback).
* The coin `rand::random::<f32>() > 0.1` of `process_card_payment` is
  passed in as an explicit `Bool` parameter.
* `sqlx` queries that can fail for non-relational reasons (connection or
  decode errors) are modelled with an explicit failure set in the store
  (`policy_fetch_fails`) where a claim depends on that failure mode.
-/

namespace Defiant

/-- `PaymentStatus` from `src/backend/src/models/payment.rs`. -/
inductive PaymentStatus where
  | pending
  | processing
  | requiresAction
  | requiresConfirmation
  | requiresCapture
  | canceled
  | succeeded
  | failed
  | refunded
  | partiallyRefunded
  | disputed
deriving DecidableEq, Repr

/-- `PaymentMethod` from `src/backend/src/models/payment.rs`. -/
inductive PaymentMethod where
  | card
  | bankTransfer
  | crypto
  | applePay
  | googlePay
  | payPal
  | custom
deriving DecidableEq, Repr

/-- JSON object metadata, as manipulated by `jsonb_set` in
`process_crypto_payment`: an association list of string keys to string
values. -/
abbrev Metadata := List (String × String)

/-- The `Payment` row (struct `Payment` in `models/payment.rs` plus the
`merchant_id` column that the `payments` table and every query carry,
which the Rust struct omits). `refund_reason` is dropped: no claim
mentions it. -/
structure Payment where
  id : Nat
  amount : Int
  currency : String
  status : PaymentStatus
  payment_method : PaymentMethod
  merchant_id : Nat
  customer_id : Option Nat
  description : Option String
  metadata : Option Metadata
  refunded_amount : Int
  failure_code : Option String := none
  failure_message : Option String := none
  created_at : Nat
  updated_at : Nat
deriving DecidableEq, Repr

/-- Internal `Merchant` struct at the bottom of `payment_service.rs`. -/
structure Merchant where
  id : Nat
  name : String
  email : String
  active : Bool
  allow_large_payments : Bool
deriving DecidableEq, Repr

/-- A row of the `api_keys` table, as joined in `validate_api_key`. -/
structure ApiKeyRow where
  key : String
  merchant_id : Nat
  active : Bool
deriving DecidableEq, Repr

/-- `CreatePaymentRequest` from `models/payment.rs` (`source` dropped: the
service never reads it). -/
structure CreatePaymentRequest where
  amount : Int
  currency : String
  payment_method : PaymentMethod
  description : Option String
  metadata : Option Metadata
  customer_id : Option Nat
deriving DecidableEq, Repr

/-- `DefiantError` from `src/backend/src/errors.rs` (variants the payment
paths never construct are still present for faithfulness). -/
inductive DefiantError where
  | databaseError (msg : String)
  | validationError (msg : String)
  | authenticationError (msg : String)
  | authorizationError (msg : String)
  | paymentError (msg : String)
  | webhookError (msg : String)
  | rateLimitError
  | notFound (msg : String)
  | internalError
  | badRequest (msg : String)
  | conflict (msg : String)
deriving DecidableEq, Repr

/-- `PaymentResponse` from `models/payment.rs`. The random uuid suffix of
`client_secret` is elided; `next_action` is always `None` in the source
and is dropped. -/
structure PaymentResponse where
  id : Nat
  amount : Int
  currency : String
  status : PaymentStatus
  payment_method : PaymentMethod
  customer_id : Option Nat
  description : Option String
  metadata : Option Metadata
  created_at : Nat
  client_secret : Option String
deriving DecidableEq, Repr

/-- The durable store: the `payments`, `merchants` and `api_keys` tables.
`policy_fetch_fails` models the sqlx failure mode of the
`SELECT allow_large_payments` query in `check_fraud` (a merchant id in
this set makes that single-column fetch return an error, which the source
swallows with `unwrap_or(false)`). -/
structure DB where
  payments : List Payment
  merchants : List Merchant
  api_keys : List ApiKeyRow
  policy_fetch_fails : List Nat
deriving DecidableEq, Repr

/-- A lifecycle event as built in `emit_payment_event`:
`{"type": event_type, "data": payment, ...}`. -/
structure Event where
  type : String
  data : Payment
deriving DecidableEq, Repr

/-- The observable steps of `create_payment`, in the order the source
performs them, used to state the claims about its algorithm. -/
inductive Step where
  | resolveMerchant
  | fraudGate
  | insertPending
  | invokeProcessor
  | applyOutcome
  | cryptoAddress
  | commitTx
  | emitEvent
deriving DecidableEq, Repr

/-- `validator::Validate` for `CreatePaymentRequest`
(`#[validate(range(min = 50))]` on amount, `#[validate(length(min = 3,
max = 3))]` on currency, `#[validate(length(max = 500))]` on description),
invoked as `data.validate()?` in `api/v1/payments.rs`; the
`From<ValidationErrors>` impl in `errors.rs` maps the failures to
`DefiantError::ValidationError`. Error strings are abbreviated. -/
def CreatePaymentRequest.validate (r : CreatePaymentRequest) :
    Except DefiantError Unit :=
  if r.amount < 50 then
    .error (.validationError "amount: Amount must be at least $0.50")
  else if r.currency.length ≠ 3 then
    .error (.validationError "currency: length")
  else
    match r.description with
    | some d =>
        if d.length > 500 then .error (.validationError "description: length")
        else .ok ()
    | none => .ok ()

/-- `String::to_uppercase` as used on the currency code: uppercase every
character (written over the character list so that it evaluates by
kernel reduction). -/
def strToUpper (s : String) : String := ⟨s.data.map Char.toUpper⟩

/-- `validate_api_key` in `payment_service.rs`: the join of `merchants`
and `api_keys` on `merchant_id`, filtered by the key and both `active`
flags; no row yields `AuthenticationError("Invalid API key")`. -/
def validate_api_key (db : DB) (api_key : String) :
    Except DefiantError Merchant :=
  match db.merchants.find? (fun m =>
      m.active && db.api_keys.any (fun ak =>
        ak.merchant_id == m.id && ak.key == api_key && ak.active)) with
  | some m => .ok m
  | none => .error (.authenticationError "Invalid API key")

/-- The high-value threshold `1_000_000_00` of `check_fraud`. -/
def FRAUD_THRESHOLD : Int := 100000000

/-- The `SELECT allow_large_payments FROM merchants WHERE id = $1`
single-value fetch inside `check_fraud`, as a fallible query: an id in
`policy_fetch_fails` models a sqlx error, a missing row models
`RowNotFound`. -/
def fetch_allow_large (db : DB) (merchant_id : Nat) :
    Except DefiantError Bool :=
  if merchant_id ∈ db.policy_fetch_fails then
    .error (.databaseError "fetch failed")
  else
    match db.merchants.find? (fun m => m.id == merchant_id) with
    | some m => .ok m.allow_large_payments
    | none => .error (.databaseError "RowNotFound")

/-- `check_fraud` in `payment_service.rs`: amounts above the threshold
are denied unless the policy fetch yields `true`; the fetch result is
collapsed with `.unwrap_or(false)`. -/
def check_fraud (db : DB) (request : CreatePaymentRequest)
    (merchant_id : Nat) : Except DefiantError Unit :=
  if request.amount > FRAUD_THRESHOLD then
    let allowed := ((fetch_allow_large db merchant_id).toOption).getD false
    if !allowed then .error (.paymentError "Large payments not allowed")
    else .ok ()
  else .ok ()

/-- `process_card_payment` in `payment_service.rs`: the simulated
processor sets the status to `Succeeded` when the coin
(`rand::random::<f32>() > 0.1`) is true, else `Failed`, and bumps
`updated_at`; it never checks the current status. -/
def process_card_payment (p : Payment) (coin : Bool) (now : Nat) : Payment :=
  let status := if coin then PaymentStatus.succeeded else PaymentStatus.failed
  { p with status := status, updated_at := now }

/-- `jsonb_set(COALESCE(metadata, '\x7b\x7d'::jsonb), '\x7bcrypto_address\x7d', v)`
on the association-list model: overwrite the key if present, else append. -/
def jsonb_set (m : Metadata) (key value : String) : Metadata :=
  if m.any (fun kv => kv.1 == key) then
    m.map (fun kv => if kv.1 == key then (key, value) else kv)
  else m ++ [(key, value)]

/-- `generate_crypto_address` in `payment_service.rs`: a hex string built
from the payment id and its creation timestamp (hex encoding of the Nat
model stands in for `hex::encode` of the uuid/timestamp bytes). -/
def generate_crypto_address (p : Payment) : String :=
  "0x" ++ (Nat.toDigits 16 p.id).asString
    ++ (Nat.toDigits 16 p.created_at).asString

/-- `process_crypto_payment` in `payment_service.rs`: stores the generated
address under the `crypto_address` metadata key and bumps `updated_at`;
the status is not touched. -/
def process_crypto_payment (p : Payment) (now : Nat) : Payment :=
  let addr := generate_crypto_address p
  { p with
      metadata := some (jsonb_set (p.metadata.getD []) "crypto_address" addr),
      updated_at := now }

/-- Equality of `Except` values is decidable when it is on both
components. -/
instance {ε α : Type} [DecidableEq ε] [DecidableEq α] :
    DecidableEq (Except ε α) := fun a b =>
  match a, b with
  | .ok x, .ok y =>
      if h : x = y then .isTrue (by simp [h]) else .isFalse (by simp [h])
  | .error x, .error y =>
      if h : x = y then .isTrue (by simp [h]) else .isFalse (by simp [h])
  | .ok _, .error _ => .isFalse (by simp)
  | .error _, .ok _ => .isFalse (by simp)

/-- The result of `create_payment`: the returned value, the store after
the transaction, the events published and the step trace. -/
structure CreateResult where
  result : Except DefiantError PaymentResponse
  db : DB
  events : List Event
  trace : List Step
deriving DecidableEq, Repr

/-- The `PaymentResponse` built at the end of `create_payment` (random
part of `client_secret` elided). -/
def create_response (p : Payment) : PaymentResponse :=
  { id := p.id
    amount := p.amount
    currency := p.currency
    status := p.status
    payment_method := p.payment_method
    customer_id := p.customer_id
    description := p.description
    metadata := p.metadata
    created_at := p.created_at
    client_secret := some ("pi_" ++ toString p.id ++ "_secret") }

/-- `PaymentService::create_payment`: begin a transaction, resolve the
merchant from the api key, run the fraud check, insert the payment row in
`Pending`, process by method (`Card` → simulated processor, `Crypto` →
crypto address, anything else untouched), commit, then emit one
`payment.created` event with the processed payment. Every error path
before commit rolls the transaction back: the store is returned
unchanged and nothing is emitted. `payment_id` models `Uuid::new_v4()`
and `now` models `Utc::now()`. The inserted row's `refunded_amount`
starts at 0 (the `INSERT` lists no such column; the migrations are not
in the repository's files, so the column default follows the spec's
"starts at 0"). -/
def create_payment (db : DB) (request : CreatePaymentRequest)
    (api_key : String) (payment_id : Nat) (now : Nat) (coin : Bool) :
    CreateResult :=
  match validate_api_key db api_key with
  | .error e => ⟨.error e, db, [], []⟩
  | .ok merchant =>
    match check_fraud db request merchant.id with
    | .error e => ⟨.error e, db, [], [.resolveMerchant]⟩
    | .ok _ =>
      let payment : Payment :=
        { id := payment_id
          amount := request.amount
          currency := strToUpper request.currency
          status := .pending
          payment_method := request.payment_method
          merchant_id := merchant.id
          customer_id := request.customer_id
          description := request.description
          metadata := request.metadata
          refunded_amount := 0
          created_at := now
          updated_at := now }
      let procResult : Payment × List Step :=
        match request.payment_method with
        | .card => (process_card_payment payment coin now,
            [.invokeProcessor, .applyOutcome])
        | .crypto => (process_crypto_payment payment now,
            [.cryptoAddress, .applyOutcome])
        | _ => (payment, [])
      let processed := procResult.1
      let db' : DB := { db with payments := db.payments ++ [processed] }
      ⟨.ok (create_response processed), db',
        [⟨"payment.created", processed⟩],
        [.resolveMerchant, .fraudGate, .insertPending] ++ procResult.2
          ++ [.commitTx, .emitEvent]⟩

/-- The `create_payment` handler in `api/v1/payments.rs`, restricted to
what the claims observe: `data.validate()?` and then the service call.
(The Redis rate limiter and the `Authorization` header extraction sit
between the two in the source and touch nothing a claim mentions.) -/
def create_payment_endpoint (db : DB) (request : CreatePaymentRequest)
    (api_key : String) (payment_id : Nat) (now : Nat) (coin : Bool) :
    Except DefiantError PaymentResponse :=
  match request.validate with
  | .error e => .error e
  | .ok _ => (create_payment db request api_key payment_id now coin).result

/-- Modelled from the spec: `get_merchant_by_api_key` is called by
`get_payment` in `payment_service.rs` but is not among the repository's
files; §4.5 requires resolving the credential to an active merchant or
`AuthenticationError`, the same contract `validate_api_key` implements. -/
def get_merchant_by_api_key (db : DB) (api_key : String) :
    Except DefiantError Merchant :=
  validate_api_key db api_key

/-- `PaymentService::get_payment`: resolve the merchant, select the
payment by id and merchant id, `NotFound` when absent, else the response
(with `client_secret := none`, as in `payment_to_response`). -/
def get_payment (db : DB) (payment_id : Nat) (api_key : String) :
    Except DefiantError PaymentResponse :=
  match get_merchant_by_api_key db api_key with
  | .error e => .error e
  | .ok merchant =>
    match db.payments.find? (fun p =>
        p.id == payment_id && p.merchant_id == merchant.id) with
    | some p => .ok { create_response p with client_secret := none }
    | none => .error (.notFound "Payment not found")

/-- Modelled from the spec: `PaymentService::refund_payment` is called
from `api/v1/payments.rs` but its definition is not among the
repository's files. Per §4.1: valid only from `Succeeded` or
`PartiallyRefunded`, else `ConflictError`; the amount defaults to the
full remaining balance; an explicit amount must satisfy
`0 < amount ≤ remaining`, else `ValidationError`; the refunded amount
grows by the amount and the status becomes `Refunded` exactly when the
remainder reaches 0, else `PartiallyRefunded`; emits `payment.refunded`. -/
def refund_payment (p : Payment) (amount : Option Int) :
    Except DefiantError (Payment × List Event) :=
  if p.status = .succeeded ∨ p.status = .partiallyRefunded then
    let remaining := p.amount - p.refunded_amount
    let amt := amount.getD remaining
    if 0 < amt ∧ amt ≤ remaining then
      let p' : Payment :=
        { p with
            refunded_amount := p.refunded_amount + amt
            status := if p.amount - (p.refunded_amount + amt) = 0 then
                PaymentStatus.refunded
              else PaymentStatus.partiallyRefunded }
      .ok (p', [⟨"payment.refunded", p'⟩])
    else .error (.validationError "Invalid refund amount")
  else .error (.conflict "Payment cannot be refunded in its current state")

/-- Modelled from the spec: `PaymentService::capture_payment` is called
from `api/v1/payments.rs` but its definition is not among the
repository's files. Per §4.1: from `RequiresCapture` the payment moves to
`Succeeded` and one `payment.captured` event is emitted; a caller finding
it already `Succeeded` returns it unchanged with no event
(idempotent-by-state); any other state yields `ConflictError`. -/
def capture_payment (p : Payment) :
    Except DefiantError (Payment × List Event) :=
  if p.status = .requiresCapture then
    let p' : Payment := { p with status := .succeeded }
    .ok (p', [⟨"payment.captured", p'⟩])
  else if p.status = .succeeded then
    .ok (p, [])
  else .error (.conflict "Payment cannot be captured in its current state")

/-- The allowed-transition table of spec §4.1, written from the spec's
words (the spec-side definition, for comparison with what the code
does). -/
def allowed_transition : PaymentStatus → PaymentStatus → Bool
  | .pending, .processing => true
  | .processing, .succeeded => true
  | .processing, .requiresCapture => true
  | .processing, .requiresAction => true
  | .processing, .failed => true
  | .requiresAction, .requiresConfirmation => true
  | .requiresAction, .failed => true
  | .requiresAction, .canceled => true
  | .requiresConfirmation, .processing => true
  | .requiresConfirmation, .canceled => true
  | .requiresCapture, .succeeded => true
  | .requiresCapture, .canceled => true
  | .succeeded, .refunded => true
  | .succeeded, .partiallyRefunded => true
  | .succeeded, .disputed => true
  | .partiallyRefunded, .refunded => true
  | .partiallyRefunded, .disputed => true
  | _, _ => false

/-! ## Concrete store and requests for witnesses and counterexamples -/

/-- A store with one active merchant (large payments not allowed) and one
active api key. -/
def exDB : DB :=
  { payments := []
    merchants := [{ id := 7, name := "Acme", email := "a@x.io",
                    active := true, allow_large_payments := false }]
    api_keys := [{ key := "sk_live_1", merchant_id := 7, active := true }]
    policy_fetch_fails := [] }

/-- A well-formed card request. -/
def exCardReq : CreatePaymentRequest :=
  { amount := 1000, currency := "usd", payment_method := .card
    description := none, metadata := none, customer_id := none }

/-- A well-formed bank-transfer request. -/
def exBankReq : CreatePaymentRequest :=
  { amount := 1000, currency := "usd", payment_method := .bankTransfer
    description := none, metadata := none, customer_id := none }

/-- A well-formed crypto request carrying merchant metadata. -/
def exCryptoReq : CreatePaymentRequest :=
  { amount := 1000, currency := "usd", payment_method := .crypto
    description := none, metadata := some [("color", "blue")]
    customer_id := none }

/-- A `Pending` card payment as `create_payment` inserts it. -/
def exPendingPayment : Payment :=
  { id := 1, amount := 1000, currency := "USD", status := .pending
    payment_method := .card, merchant_id := 7, customer_id := none
    description := none, metadata := none, refunded_amount := 0
    created_at := 0, updated_at := 0 }

/-- The merchant row of `exDB`. -/
def exMerchant : Merchant :=
  { id := 7, name := "Acme", email := "a@x.io", active := true
    allow_large_payments := false }

/-- A request above the fraud threshold. -/
def exBigReq : CreatePaymentRequest := { exCardReq with amount := 200000000 }

/-- `exDB` with the policy fetch for merchant 7 failing. -/
def exFailDB : DB := { exDB with policy_fetch_fails := [7] }

/-- A `Succeeded` payment of amount 1000 with nothing refunded. -/
def exSucceededPayment : Payment := { exPendingPayment with status := .succeeded }

/-- `exSucceededPayment` after a partial refund of 400. -/
def exRefund400 : Payment :=
  { exSucceededPayment with refunded_amount := 400, status := .partiallyRefunded }

/-- A payment awaiting manual capture. -/
def exCapturePayment : Payment := { exPendingPayment with status := .requiresCapture }

/-! ## Helper lemmas -/

/-- The only error `validate_api_key` produces. -/
theorem validate_api_key_error_shape (db : DB) (key : String) (e : DefiantError)
    (h : validate_api_key db key = .error e) :
    e = .authenticationError "Invalid API key" := by
  unfold validate_api_key at h
  cases hf : db.merchants.find? (fun m =>
      m.active && db.api_keys.any (fun ak =>
        ak.merchant_id == m.id && ak.key == key && ak.active)) with
  | some m => rw [hf] at h; exact absurd h (by simp)
  | none => rw [hf] at h; exact (Except.error.injEq _ _).mp h.symm

/-- The only error `check_fraud` produces. -/
theorem check_fraud_error_shape (db : DB) (req : CreatePaymentRequest)
    (mid : Nat) (e : DefiantError) (h : check_fraud db req mid = .error e) :
    e = .paymentError "Large payments not allowed" := by
  simp only [check_fraud] at h
  split at h
  · split at h
    · simp only [Except.error.injEq] at h
      exact h.symm
    · exact absurd h (by simp)
  · exact absurd h (by simp)

/-- `create_payment` only ever fails with the authentication error of
`validate_api_key` or the fraud denial of `check_fraud`. -/
theorem create_payment_error_shape (db : DB) (req : CreatePaymentRequest)
    (key : String) (pid now : Nat) (coin : Bool) (e : DefiantError)
    (h : (create_payment db req key pid now coin).result = .error e) :
    e = .authenticationError "Invalid API key"
    ∨ e = .paymentError "Large payments not allowed" := by
  cases hv : validate_api_key db key with
  | error e2 =>
      simp only [create_payment, hv, Except.error.injEq] at h
      exact Or.inl (h ▸ validate_api_key_error_shape db key e2 hv)
  | ok m =>
      cases hf : check_fraud db req m.id with
      | error e2 =>
          simp only [create_payment, hv, hf, Except.error.injEq] at h
          exact Or.inr (h ▸ check_fraud_error_shape db req m.id e2 hf)
      | ok u =>
          simp only [create_payment, hv, hf] at h
          exact Except.noConfusion h

/-! ## C1 — the transition table -/

/-- Claim C1 counterexample: card processing inside `create_payment`
moves the freshly inserted `Pending` payment directly to `Succeeded` — an
edge absent from the §4.1 table (which allows only
`Pending → Processing`) — and the call returns `ok`, not a
`ConflictError`, so the claim "status only ever changes along a table
edge; any other transition fails with ConflictError and leaves the
status unchanged" is false on the code. -/
theorem C1_counterexample :
    exPendingPayment.status = PaymentStatus.pending
    ∧ (process_card_payment exPendingPayment true 5).status
        = PaymentStatus.succeeded
    ∧ allowed_transition PaymentStatus.pending PaymentStatus.succeeded = false
    ∧ allowed_transition PaymentStatus.pending PaymentStatus.failed = false
    ∧ (create_payment exDB exCardReq "sk_live_1" 1 0 true).result.isOk = true
    ∧ (create_payment exDB exCardReq "sk_live_1" 1 0 true).db.payments.map
        Payment.status = [PaymentStatus.succeeded] := by decide

/-- Claim C1 (amended): in the repository's code the only status
mutation is the simulated card processor inside `create_payment`, which
takes the inserted `Pending` row directly to `Succeeded` or `Failed`
with no guard — edges not in the §4.1 table; every other method leaves
the status `Pending`, and `create_payment` never fails with a
`ConflictError`. -/
theorem C1_status_edges (db : DB) (req : CreatePaymentRequest)
    (key : String) (pid now : Nat) (coin : Bool) :
    (∀ resp, (create_payment db req key pid now coin).result = .ok resp →
      resp.status = (match req.payment_method with
        | .card =>
            if coin then PaymentStatus.succeeded else PaymentStatus.failed
        | .crypto => PaymentStatus.pending
        | _ => PaymentStatus.pending))
    ∧ (∀ msg, (create_payment db req key pid now coin).result
        ≠ .error (.conflict msg)) := by
  constructor
  · intro resp h
    cases hv : validate_api_key db key with
    | error e =>
        simp only [create_payment, hv] at h
        exact Except.noConfusion h
    | ok m =>
        cases hf : check_fraud db req m.id with
        | error e =>
            simp only [create_payment, hv, hf] at h
            exact Except.noConfusion h
        | ok u =>
            cases hm : req.payment_method <;>
              (simp only [create_payment, hv, hf, hm, Except.ok.injEq] at h ⊢;
                subst h; rfl)
  · intro msg h
    rcases create_payment_error_shape db req key pid now coin _ h with h2 | h2 <;>
      simp at h2

/-- Witness for `C1_status_edges` at a concrete store and card request. -/
theorem C1_status_edges_witness :
    (create_response (process_card_payment
        { id := 1, amount := 1000, currency := "USD"
          status := .pending, payment_method := .card, merchant_id := 7
          customer_id := none, description := none, metadata := none
          refunded_amount := 0, created_at := 0, updated_at := 0 }
        true 0)).status = PaymentStatus.succeeded :=
  (C1_status_edges exDB exCardReq "sk_live_1" 1 0 true).1 _ (by decide)

/-! ## C2 — the refunded-amount invariant -/

/-- Claim C2: the payment row `create_payment` appends starts with
`refunded_amount = 0`, and every successful (spec-modelled)
`refund_payment` call keeps `0 ≤ refunded_amount ≤ amount` and never
decreases `refunded_amount`. -/
theorem C2_refunded_amount_invariant :
    (∀ db req key pid now coin resp,
      (create_payment db req key pid now coin).result = .ok resp →
      ∃ q, (create_payment db req key pid now coin).db.payments
            = db.payments ++ [q]
        ∧ q.refunded_amount = 0 ∧ q.id = pid)
    ∧ (∀ (p : Payment) (amt : Option Int) (p' : Payment) (evs : List Event),
        0 ≤ p.refunded_amount → p.refunded_amount ≤ p.amount →
        refund_payment p amt = .ok (p', evs) →
        p.refunded_amount ≤ p'.refunded_amount
        ∧ 0 ≤ p'.refunded_amount
        ∧ p'.refunded_amount ≤ p'.amount
        ∧ p'.amount = p.amount) := by
  constructor
  · intro db req key pid now coin resp h
    cases hv : validate_api_key db key with
    | error e =>
        simp only [create_payment, hv] at h
        exact Except.noConfusion h
    | ok m =>
        cases hf : check_fraud db req m.id with
        | error e =>
            simp only [create_payment, hv, hf] at h
            exact Except.noConfusion h
        | ok u =>
            cases hm : req.payment_method <;>
              (simp only [create_payment, hv, hf, hm];
                exact ⟨_, rfl, rfl, rfl⟩)
  · intro p amt p' evs h0 hle h
    simp only [refund_payment] at h
    split at h
    · split at h
      · next hcond =>
          simp only [Except.ok.injEq, Prod.mk.injEq] at h
          obtain ⟨hp, _⟩ := h
          subst hp
          dsimp only
          obtain ⟨h1, h2⟩ := hcond
          refine ⟨by omega, by omega, by omega, rfl⟩
      · exact Except.noConfusion h
    · exact Except.noConfusion h

/-- Witness for `C2_refunded_amount_invariant` at a concrete refund of
400 out of 1000. -/
theorem C2_refunded_amount_invariant_witness :
    exSucceededPayment.refunded_amount ≤ exRefund400.refunded_amount
    ∧ 0 ≤ exRefund400.refunded_amount
    ∧ exRefund400.refunded_amount ≤ exRefund400.amount
    ∧ exRefund400.amount = exSucceededPayment.amount :=
  C2_refunded_amount_invariant.2 exSucceededPayment (some 400) exRefund400
    [⟨"payment.refunded", exRefund400⟩] (by decide) (by decide) (by decide)

/-! ## C3 — the create pipeline -/

/-- Claim C3 counterexample: for a well-formed bank-transfer request with
a resolvable active merchant, `create_payment` succeeds but never
invokes the processor — its step trace goes straight from the insert to
the commit — so the claim that create always performs the processor
invocation and applies its outcome is false on the code. -/
theorem C3_counterexample :
    (create_payment exDB exBankReq "sk_live_1" 2 0 true).result.isOk = true
    ∧ (create_payment exDB exBankReq "sk_live_1" 2 0 true).trace
        = [.resolveMerchant, .fraudGate, .insertPending, .commitTx, .emitEvent]
    ∧ Step.invokeProcessor ∉
        (create_payment exDB exBankReq "sk_live_1" 2 0 true).trace := by decide

/-- Claim C3 (amended): `create_payment` runs merchant resolution, the
fraud gate, the `Pending` insert, the processor (for `Card` only; for
other methods the processor step is skipped) and the commit as one
atomic unit — any failure leaves the store unchanged with no event —
and on success emits exactly one `payment.created` event after the
commit, carrying the post-processing status of the returned payment. -/
theorem C3_create_pipeline :
    (∀ db req key pid now coin, req.payment_method = PaymentMethod.card →
      (create_payment db req key pid now coin).result.isOk = true →
      (create_payment db req key pid now coin).trace
        = [.resolveMerchant, .fraudGate, .insertPending, .invokeProcessor,
           .applyOutcome, .commitTx, .emitEvent])
    ∧ (∀ db req key pid now coin resp,
        (create_payment db req key pid now coin).result = .ok resp →
        (create_payment db req key pid now coin).events.map Event.type
            = ["payment.created"]
        ∧ (create_payment db req key pid now coin).events.map
            (fun e => e.data.status) = [resp.status])
    ∧ (∀ db req key pid now coin,
        (create_payment db req key pid now coin).result.isOk = false →
        (create_payment db req key pid now coin).db = db
        ∧ (create_payment db req key pid now coin).events = []) := by
  refine ⟨?_, ?_, ?_⟩
  · intro db req key pid now coin hm h
    cases hv : validate_api_key db key with
    | error e => simp [create_payment, hv, Except.isOk, Except.toBool] at h
    | ok m =>
        cases hf : check_fraud db req m.id with
        | error e =>
            simp [create_payment, hv, hf, Except.isOk, Except.toBool] at h
        | ok u =>
            simp only [create_payment, hv, hf, hm]
            rfl
  · intro db req key pid now coin resp h
    cases hv : validate_api_key db key with
    | error e =>
        simp only [create_payment, hv] at h
        exact Except.noConfusion h
    | ok m =>
        cases hf : check_fraud db req m.id with
        | error e =>
            simp only [create_payment, hv, hf] at h
            exact Except.noConfusion h
        | ok u =>
            simp only [create_payment, hv, hf, Except.ok.injEq] at h ⊢
            subst h
            exact ⟨rfl, rfl⟩
  · intro db req key pid now coin h
    cases hv : validate_api_key db key with
    | error e => simp [create_payment, hv]
    | ok m =>
        cases hf : check_fraud db req m.id with
        | error e => simp [create_payment, hv, hf]
        | ok u =>
            simp [create_payment, hv, hf, Except.isOk, Except.toBool] at h

/-- Witness for `C3_create_pipeline` on a concrete card request. -/
theorem C3_create_pipeline_witness :
    (create_payment exDB exCardReq "sk_live_1" 1 0 true).trace
      = [.resolveMerchant, .fraudGate, .insertPending, .invokeProcessor,
         .applyOutcome, .commitTx, .emitEvent] :=
  C3_create_pipeline.1 exDB exCardReq "sk_live_1" 1 0 true rfl (by decide)

/-! ## C4 — the fraud gate on a merchant without large payments -/

/-- Claim C4: for a merchant whose `allow_large_payments` flag is false
(and whose `merchants` row is what the fraud check refetches), a creation
with amount at or below the threshold passes the fraud gate and
succeeds, while an amount above the threshold fails with the
`PaymentError` of the fraud gate, rolls the transaction back (store
unchanged) and emits nothing. -/
theorem C4_fraud_gate (db : DB) (key : String) (m : Merchant)
    (req : CreatePaymentRequest) (pid now : Nat) (coin : Bool)
    (h1 : validate_api_key db key = .ok m)
    (h2 : db.merchants.find? (fun x => x.id == m.id) = some m)
    (h3 : m.allow_large_payments = false) :
    (req.amount ≤ FRAUD_THRESHOLD →
      (create_payment db req key pid now coin).result.isOk = true)
    ∧ (FRAUD_THRESHOLD < req.amount →
      (create_payment db req key pid now coin).result
          = .error (.paymentError "Large payments not allowed")
      ∧ (create_payment db req key pid now coin).db = db
      ∧ (create_payment db req key pid now coin).events = []) := by
  constructor
  · intro hamt
    have hf : check_fraud db req m.id = .ok () := by
      simp only [check_fraud, if_neg (not_lt.mpr hamt)]
    cases hmth : req.payment_method <;>
      (simp only [create_payment, h1, hf, hmth, Except.isOk]; rfl)
  · intro hamt
    have hfetch : fetch_allow_large db m.id ≠ .ok true := by
      simp only [fetch_allow_large]
      split
      · exact fun hh => Except.noConfusion hh
      · rw [h2]
        intro hh
        rw [Except.ok.injEq] at hh
        rw [h3] at hh
        exact Bool.noConfusion hh
    have hall : ((fetch_allow_large db m.id).toOption).getD false = false := by
      cases hg : fetch_allow_large db m.id with
      | error e => simp [Except.toOption]
      | ok b =>
          cases b with
          | false => simp [Except.toOption]
          | true => exact absurd hg hfetch
    have hf : check_fraud db req m.id
        = .error (.paymentError "Large payments not allowed") := by
      simp only [check_fraud, if_pos hamt, hall]
      rfl
    simp [create_payment, h1, hf]

/-- Witness for `C4_fraud_gate`: amount 1000 passes, amount 200000000 is
denied with the store unchanged. -/
theorem C4_fraud_gate_witness :
    (create_payment exDB exCardReq "sk_live_1" 1 0 true).result.isOk = true
    ∧ (create_payment exDB exBigReq "sk_live_1" 1 0 true).result
        = .error (.paymentError "Large payments not allowed")
    ∧ (create_payment exDB exBigReq "sk_live_1" 1 0 true).db = exDB
    ∧ (create_payment exDB exBigReq "sk_live_1" 1 0 true).events = [] :=
  ⟨(C4_fraud_gate exDB "sk_live_1" exMerchant exCardReq 1 0 true
      (by decide) (by decide) rfl).1 (by decide),
   (C4_fraud_gate exDB "sk_live_1" exMerchant exBigReq 1 0 true
      (by decide) (by decide) rfl).2 (by decide)⟩

/-! ## C5 — refund semantics -/

/-- Claim C5 (spec-modelled `refund_payment`): from `Succeeded` or
`PartiallyRefunded`, an omitted amount defaults to the full remaining
balance; an explicit amount outside `0 < amount ≤ remaining` fails with
`ValidationError` (and, the function being pure, changes nothing); a
valid refund adds the amount to `refunded_amount` and moves the payment
to `Refunded` exactly when the remainder reaches 0, else to
`PartiallyRefunded`. -/
theorem C5_refund_semantics (p : Payment)
    (h : p.status = .succeeded ∨ p.status = .partiallyRefunded) :
    (refund_payment p none
        = refund_payment p (some (p.amount - p.refunded_amount)))
    ∧ (∀ amt : Int, ¬(0 < amt ∧ amt ≤ p.amount - p.refunded_amount) →
        refund_payment p (some amt)
          = .error (.validationError "Invalid refund amount"))
    ∧ (∀ (amt : Int) (p' : Payment) (evs : List Event),
        refund_payment p (some amt) = .ok (p', evs) →
        p'.refunded_amount = p.refunded_amount + amt
        ∧ (p'.status = .refunded ↔ p.amount - p'.refunded_amount = 0)
        ∧ (p'.status = .partiallyRefunded
            ↔ p.amount - p'.refunded_amount ≠ 0)) := by
  refine ⟨by simp only [refund_payment, Option.getD], ?_, ?_⟩
  · intro amt hbad
    simp only [refund_payment, if_pos h, Option.getD, if_neg hbad]
  · intro amt p' evs hok
    simp only [refund_payment, if_pos h, Option.getD] at hok
    split at hok
    · simp only [Except.ok.injEq, Prod.mk.injEq] at hok
      obtain ⟨hp, _⟩ := hok
      subst hp
      dsimp only
      refine ⟨rfl, ?_, ?_⟩ <;> (split <;> simp_all)
    · exact Except.noConfusion hok

/-- Witness for `C5_refund_semantics`: refunding 400 of 1000 yields
`PartiallyRefunded` with 400 refunded. -/
theorem C5_refund_semantics_witness :
    exRefund400.refunded_amount = exSucceededPayment.refunded_amount + 400
    ∧ (exRefund400.status = .refunded
        ↔ exSucceededPayment.amount - exRefund400.refunded_amount = 0)
    ∧ (exRefund400.status = .partiallyRefunded
        ↔ exSucceededPayment.amount - exRefund400.refunded_amount ≠ 0) :=
  (C5_refund_semantics exSucceededPayment (Or.inl rfl)).2.2 400 exRefund400
    [⟨"payment.refunded", exRefund400⟩] (by decide)

/-! ## C6 — concurrent duplicate capture -/

/-- Claim C6 (spec-modelled `capture_payment`, with the two concurrent
calls modelled as the serialization §5 mandates): on a payment in
`RequiresCapture`, the first capture performs the single transition to
`Succeeded` and emits the single `payment.captured` event; the second
capture, reading the already-updated state, returns it unchanged with no
event — so exactly one transition and one event occur and both callers
observe `Succeeded`. -/
theorem C6_concurrent_capture (p : Payment)
    (h : p.status = .requiresCapture) :
    capture_payment p
      = .ok ({ p with status := PaymentStatus.succeeded },
        [⟨"payment.captured", { p with status := PaymentStatus.succeeded }⟩])
    ∧ capture_payment { p with status := PaymentStatus.succeeded }
      = .ok ({ p with status := PaymentStatus.succeeded }, []) := by
  constructor
  · simp only [capture_payment, if_pos h]
  · simp only [capture_payment]
    rfl

/-- Witness for `C6_concurrent_capture` on a concrete
`RequiresCapture` payment. -/
theorem C6_concurrent_capture_witness :
    capture_payment exCapturePayment
      = .ok ({ exCapturePayment with status := PaymentStatus.succeeded },
        [⟨"payment.captured",
          { exCapturePayment with status := PaymentStatus.succeeded }⟩])
    ∧ capture_payment { exCapturePayment with status := PaymentStatus.succeeded }
      = .ok ({ exCapturePayment with status := PaymentStatus.succeeded }, []) :=
  C6_concurrent_capture exCapturePayment rfl

/-! ## C7 — validation of the create input -/

/-- Whether a create outcome is a `ValidationError`. -/
def isValidationError : Except DefiantError PaymentResponse → Bool
  | .error (.validationError _) => true
  | _ => false

/-- A request with a positive amount below the validator's minimum of
50. -/
def exLowReq : CreatePaymentRequest :=
  { amount := 10, currency := "USD", payment_method := .card
    description := none, metadata := none, customer_id := none }

/-- `validate` succeeds exactly when the amount is at least 50, the
currency has exactly 3 characters and the description (when present) is
at most 500 characters. -/
theorem validate_ok_iff (r : CreatePaymentRequest) :
    r.validate = .ok () ↔
      (50 ≤ r.amount ∧ r.currency.length = 3
        ∧ (r.description.map String.length).getD 0 ≤ 500) := by
  constructor
  · intro h
    unfold CreatePaymentRequest.validate at h
    split at h
    · exact Except.noConfusion h
    · split at h
      · exact Except.noConfusion h
      · next h1 h2 =>
          refine ⟨by omega, not_ne_iff.mp h2, ?_⟩
          split at h
          next d hd =>
            split at h
            · exact Except.noConfusion h
            · next h3 =>
                rw [hd]
                simp only [Option.map_some', Option.getD_some]
                omega
          next hd =>
            rw [hd]
            simp
  · rintro ⟨ha, hc, hdlen⟩
    unfold CreatePaymentRequest.validate
    rw [if_neg (by omega), if_neg (by omega)]
    cases hd : r.description with
    | none => rfl
    | some d =>
        rw [hd] at hdlen
        simp only [Option.map_some', Option.getD_some] at hdlen
        have h5 : ¬ (d.length > 500) := by omega
        simp [h5]

/-- Every `validate` failure is a `ValidationError`. -/
theorem validate_error_shape (r : CreatePaymentRequest) (e : DefiantError)
    (h : r.validate = .error e) : ∃ msg, e = .validationError msg := by
  unfold CreatePaymentRequest.validate at h
  split at h
  · exact ⟨_, ((Except.error.injEq _ _).mp h).symm⟩
  · split at h
    · exact ⟨_, ((Except.error.injEq _ _).mp h).symm⟩
    · split at h
      · split at h
        · exact ⟨_, ((Except.error.injEq _ _).mp h).symm⟩
        · exact Except.noConfusion h
      · exact Except.noConfusion h

/-- The service-level `create_payment` never produces a
`ValidationError` (its failures are authentication or fraud denial). -/
theorem create_payment_not_validation (db : DB)
    (req : CreatePaymentRequest) (key : String) (pid now : Nat)
    (coin : Bool) :
    isValidationError (create_payment db req key pid now coin).result
      = false := by
  cases hres : (create_payment db req key pid now coin).result with
  | ok r => rfl
  | error e =>
      rcases create_payment_error_shape db req key pid now coin e hres
        with h | h <;> (subst h; rfl)

/-- Claim C7 counterexample: the request with amount 10 — positive, with
a 3-letter currency and a valid method tag — is rejected with a
`ValidationError`, because the validator requires amount ≥ 50, not
merely > 0; so "create does not fail with ValidationError for every
request with amount > 0, a 3-letter currency and a valid method" is
false on the code. -/
theorem C7_counterexample :
    (0 : Int) < exLowReq.amount
    ∧ exLowReq.currency.length = 3
    ∧ create_payment_endpoint exDB exLowReq "sk_live_1" 1 0 true
        = .error (.validationError
            "amount: Amount must be at least $0.50") := by decide

/-- Claim C7 (amended): create fails with `ValidationError` exactly when
the request violates the validator's declared rules — amount below 50
minor units (not merely non-positive), currency of length other than 3,
or a description longer than 500 characters. (An invalid method tag is
rejected by JSON deserialization before the handler runs, so it never
surfaces as `ValidationError`.) -/
theorem C7_validation (db : DB) (req : CreatePaymentRequest)
    (key : String) (pid now : Nat) (coin : Bool) :
    isValidationError (create_payment_endpoint db req key pid now coin)
        = true
    ↔ ¬(50 ≤ req.amount ∧ req.currency.length = 3
        ∧ (req.description.map String.length).getD 0 ≤ 500) := by
  constructor
  · intro h hcond
    have hok : req.validate = .ok () := (validate_ok_iff req).mpr hcond
    simp only [create_payment_endpoint, hok] at h
    rw [create_payment_not_validation db req key pid now coin] at h
    exact Bool.noConfusion h
  · intro hcond
    cases hval : req.validate with
    | ok u =>
        cases u
        exact absurd ((validate_ok_iff req).mp hval) hcond
    | error e =>
        obtain ⟨msg, hmsg⟩ := validate_error_shape req e hval
        subst hmsg
        simp only [create_payment_endpoint, hval]
        rfl

/-- Witness for `C7_validation`: the amount-10 request is a validation
failure. -/
theorem C7_validation_witness :
    isValidationError
        (create_payment_endpoint exDB exLowReq "sk_live_1" 1 0 true)
      = true :=
  (C7_validation exDB exLowReq "sk_live_1" 1 0 true).mpr (by decide)

/-! ## C8 — fail-closed fraud policy lookup -/

/-- Claim C8: when the amount is above the threshold and the
`allow_large_payments` fetch fails (no value can be obtained), the
`unwrap_or(false)` in `check_fraud` treats the merchant as not allowed:
`create_payment` fails with the fraud `PaymentError`, the transaction
rolls back (store unchanged) and nothing is emitted. -/
theorem C8_fail_closed (db : DB) (key : String) (m : Merchant)
    (req : CreatePaymentRequest) (pid now : Nat) (coin : Bool)
    (h1 : validate_api_key db key = .ok m)
    (h2 : (fetch_allow_large db m.id).toOption = none)
    (h3 : FRAUD_THRESHOLD < req.amount) :
    (create_payment db req key pid now coin).result
        = .error (.paymentError "Large payments not allowed")
    ∧ (create_payment db req key pid now coin).db = db
    ∧ (create_payment db req key pid now coin).events = [] := by
  have hf : check_fraud db req m.id
      = .error (.paymentError "Large payments not allowed") := by
    simp [check_fraud, h2, h3]
  simp [create_payment, h1, hf]

/-- Witness for `C8_fail_closed`: in `exFailDB` the policy fetch for
merchant 7 errors, and the above-threshold request is denied. -/
theorem C8_fail_closed_witness :
    (create_payment exFailDB exBigReq "sk_live_1" 1 0 true).result
        = .error (.paymentError "Large payments not allowed")
    ∧ (create_payment exFailDB exBigReq "sk_live_1" 1 0 true).db = exFailDB
    ∧ (create_payment exFailDB exBigReq "sk_live_1" 1 0 true).events = [] :=
  C8_fail_closed exFailDB "sk_live_1" exMerchant exBigReq 1 0 true
    (by decide) (by decide) (by decide)

/-! ## C9 — metadata opacity -/

/-- Claim C9 counterexample: a crypto creation stores and returns
metadata different from what the merchant supplied —
`process_crypto_payment` writes a `crypto_address` key into the bag — so
"the metadata stored and returned is exactly the metadata the merchant
supplied" is false on the code. -/
theorem C9_counterexample :
    (create_payment exDB exCryptoReq "sk_live_1" 4 0 true).result.isOk = true
    ∧ (create_payment exDB exCryptoReq "sk_live_1" 4 0 true).result.map
        (fun r => r.metadata) ≠ .ok exCryptoReq.metadata := by decide

/-- Claim C9 (amended): for every method other than `Crypto`, create
stores and returns exactly the supplied metadata; the (spec-modelled)
capture and refund never touch metadata; and `get_payment` returns the
stored row's metadata unchanged. For `Crypto`, the core adds a generated
`crypto_address` key (the counterexample). -/
theorem C9_metadata_opacity :
    (∀ db req key pid now coin resp,
      req.payment_method ≠ PaymentMethod.crypto →
      (create_payment db req key pid now coin).result = .ok resp →
      resp.metadata = req.metadata
      ∧ ∃ q, (create_payment db req key pid now coin).db.payments
            = db.payments ++ [q] ∧ q.metadata = req.metadata)
    ∧ (∀ p p' evs, capture_payment p = .ok (p', evs) →
        p'.metadata = p.metadata)
    ∧ (∀ p amt p' evs, refund_payment p amt = .ok (p', evs) →
        p'.metadata = p.metadata)
    ∧ (∀ db pid key resp, get_payment db pid key = .ok resp →
        ∃ p, p ∈ db.payments ∧ resp.metadata = p.metadata) := by
  refine ⟨?_, ?_, ?_, ?_⟩
  · intro db req key pid now coin resp hcr h
    cases hv : validate_api_key db key with
    | error e =>
        simp only [create_payment, hv] at h
        exact Except.noConfusion h
    | ok m =>
        cases hf : check_fraud db req m.id with
        | error e =>
            simp only [create_payment, hv, hf] at h
            exact Except.noConfusion h
        | ok u =>
            cases hm : req.payment_method <;> first
              | exact absurd hm hcr
              | (simp only [create_payment, hv, hf, hm,
                    Except.ok.injEq] at h ⊢;
                 subst h;
                 exact ⟨rfl, _, rfl, rfl⟩)
  · intro p p' evs h
    simp only [capture_payment] at h
    split at h
    · simp only [Except.ok.injEq, Prod.mk.injEq] at h
      obtain ⟨hp, _⟩ := h
      subst hp
      rfl
    · split at h
      · simp only [Except.ok.injEq, Prod.mk.injEq] at h
        obtain ⟨hp, _⟩ := h
        subst hp
        rfl
      · exact Except.noConfusion h
  · intro p amt p' evs h
    simp only [refund_payment] at h
    split at h
    · split at h
      · simp only [Except.ok.injEq, Prod.mk.injEq] at h
        obtain ⟨hp, _⟩ := h
        subst hp
        rfl
      · exact Except.noConfusion h
    · exact Except.noConfusion h
  · intro db pid key resp h
    cases hv : validate_api_key db key with
    | error e =>
        simp only [get_payment, get_merchant_by_api_key, hv] at h
        exact Except.noConfusion h
    | ok m =>
        simp only [get_payment, get_merchant_by_api_key, hv] at h
        cases hfind : db.payments.find? (fun p =>
            p.id == pid && p.merchant_id == m.id) with
        | none =>
            rw [hfind] at h
            exact Except.noConfusion h
        | some p =>
            rw [hfind] at h
            simp only [Except.ok.injEq] at h
            subst h
            exact ⟨p, List.mem_of_find?_eq_some hfind, rfl⟩

/-- A bank-transfer request carrying metadata. -/
def exBankMetaReq : CreatePaymentRequest :=
  { exBankReq with metadata := some [("k", "v")] }

/-- The response `create_payment` returns for `exBankMetaReq`. -/
def exBankMetaResp : PaymentResponse :=
  { id := 2, amount := 1000, currency := "USD", status := .pending
    payment_method := .bankTransfer, customer_id := none
    description := none, metadata := some [("k", "v")], created_at := 0
    client_secret := some "pi_2_secret" }

/-- Witness for `C9_metadata_opacity`: the bank-transfer creation returns
the supplied metadata unchanged. -/
theorem C9_metadata_opacity_witness :
    exBankMetaResp.metadata = exBankMetaReq.metadata :=
  (C9_metadata_opacity.1 exDB exBankMetaReq "sk_live_1" 2 0 true
    exBankMetaResp (by decide) (by decide)).1

/-! ## C10 — non-Card, non-Crypto methods skip the processor -/

/-- Claim C10: for a method that is neither `Card` nor `Crypto`, a
creation that passes authentication and the fraud gate skips the
processor entirely — the step trace goes from the insert straight to the
commit — and commits and returns the payment with status still
`Pending`. -/
theorem C10_skip_processor (db : DB) (req : CreatePaymentRequest)
    (key : String) (m : Merchant) (pid now : Nat) (coin : Bool)
    (hc : req.payment_method ≠ PaymentMethod.card)
    (hcr : req.payment_method ≠ PaymentMethod.crypto)
    (h1 : validate_api_key db key = .ok m)
    (h2 : check_fraud db req m.id = .ok ()) :
    (create_payment db req key pid now coin).result.map (fun r => r.status)
        = .ok PaymentStatus.pending
    ∧ (create_payment db req key pid now coin).db.payments.map
        Payment.status = db.payments.map Payment.status
          ++ [PaymentStatus.pending]
    ∧ (create_payment db req key pid now coin).trace
        = [.resolveMerchant, .fraudGate, .insertPending, .commitTx,
           .emitEvent]
    ∧ Step.invokeProcessor ∉ (create_payment db req key pid now coin).trace
    := by
  cases hm : req.payment_method <;> first
    | exact absurd hm hc
    | exact absurd hm hcr
    | (simp only [create_payment, h1, h2, hm]
       exact ⟨rfl, by simp, rfl, by decide⟩)

/-- Witness for `C10_skip_processor` on a concrete bank-transfer
request. -/
theorem C10_skip_processor_witness :
    (create_payment exDB exBankReq "sk_live_1" 2 0 true).result.map
        (fun r => r.status) = .ok PaymentStatus.pending
    ∧ (create_payment exDB exBankReq "sk_live_1" 2 0 true).db.payments.map
        Payment.status = exDB.payments.map Payment.status
          ++ [PaymentStatus.pending]
    ∧ (create_payment exDB exBankReq "sk_live_1" 2 0 true).trace
        = [.resolveMerchant, .fraudGate, .insertPending, .commitTx,
           .emitEvent]
    ∧ Step.invokeProcessor ∉
        (create_payment exDB exBankReq "sk_live_1" 2 0 true).trace :=
  C10_skip_processor exDB exBankReq "sk_live_1" exMerchant 2 0 true
    (by decide) (by decide) (by decide) (by decide)

end Defiant
